import Mathlib

/-!
Verification of the aspen-engine device-selection and swapchain-lifecycle
subsystem, shallowly embedded from the Rust sources:

* `src/graphics/mod.rs`    — `Graphics::new` (device enumeration, filtering,
  ranking and selection, with its `GraphicsErrorType` error taxonomy);
* `src/graphics/window.rs` — `AspenWindow` (per-window swapchain manager:
  `new`, `recreate_swapchain`, `window_size_dependent_setup`);
* `src/lib.rs`             — `Engine::run` (redraw dispatch that guards
  `recreate_swapchain` behind the dirty flag);
* `extras/th/framework.rs` — `Framework` (the full present cycle, modelled
  as a step function over a per-window state record plus an event trace).

Platform calls (device enumeration, surface capability queries, image
acquisition, queue submission) are modelled as oracle inputs: the
environment records which outcome the platform reports, and the embedding
reproduces exactly the control flow the source performs on that outcome.
Machine integers in this code are sizes and indices far below any overflow
boundary, so they are embedded as `Nat`; `f32` viewport fields hold exact
small integers (window extents) and the constants 0 and 1, so they are
embedded as `Nat` as well.
-/

namespace Aspen

/-! ## Physical-device model (vulkano `PhysicalDevice` as seen by selection) -/

/-- `PhysicalDeviceType` from vulkano; the source's `match` has a catch-all
arm `_ => 5`, represented by the extra constructor `UnknownDeviceType`. -/
inductive PhysicalDeviceType
  | DiscreteGpu
  | IntegratedGpu
  | VirtualGpu
  | Cpu
  | Other
  | UnknownDeviceType
deriving DecidableEq

/-- One queue family of a physical device: whether its `queue_flags`
intersect `GRAPHICS`, and the result of `surface_support(i, surface)` for
the main window surface (`none` models the query failing, which the source
collapses with `unwrap_or(false)`). -/
structure QueueFamily where
  graphics : Bool
  surface_support : Option Bool
deriving DecidableEq

/-- A candidate physical device with the attributes the selection code
reads: `api_version()` as (major, minor), the two extensions consulted, the
device type, and its queue families in enumeration order. -/
structure PhysDevice where
  api_version : Nat × Nat
  khr_dynamic_rendering : Bool
  khr_swapchain : Bool
  device_type : PhysicalDeviceType
  queue_families : List QueueFamily
deriving DecidableEq

/-- `v >= w` on vulkano `Version` restricted to (major, minor). -/
def versionAtLeast (v w : Nat × Nat) : Bool :=
  w.1 < v.1 || (v.1 == w.1 && w.2 <= v.2)

/-- `Version::V1_3` as (major, minor). -/
def V1_3 : Nat × Nat := (1, 3)

/-- First filter of `Graphics::new` / `Framework::new`:
`p.api_version() >= Version::V1_3 || p.supported_extensions().khr_dynamic_rendering`. -/
def dynamicRenderingFilter (p : PhysDevice) : Bool :=
  versionAtLeast p.api_version V1_3 || p.khr_dynamic_rendering

/-- Second filter: `p.supported_extensions().contains(&vk_device_extensions)`
where the required set is `{ khr_swapchain: true }`. -/
def extensionsFilter (p : PhysDevice) : Bool :=
  p.khr_swapchain

/-- The queue-family predicate of the `filter_map`:
`q.queue_flags.intersects(QueueFlags::GRAPHICS) && p.surface_support(i, surface).unwrap_or(false)`. -/
def queueQualifies (q : QueueFamily) : Bool :=
  q.graphics && q.surface_support.getD false

/-- Rust `Iterator::position`: index of the first element satisfying the
predicate, `none` when there is none. -/
def position {α : Type} (pred : α → Bool) : List α → Option Nat
  | [] => none
  | x :: xs => if pred x then some 0 else (position pred xs).map (· + 1)

/-- `p.queue_family_properties().iter().enumerate().position(..)` of the
selection code: the first graphics+present-capable queue family. -/
def firstQueueFamily (p : PhysDevice) : Option Nat :=
  position queueQualifies p.queue_families

/-- The candidate set after the two `filter`s and the `filter_map`: each
surviving device paired with its first qualifying queue-family index, in
enumeration order. -/
def deviceCandidates (ps : List PhysDevice) : List (PhysDevice × Nat) :=
  ((ps.filter dynamicRenderingFilter).filter extensionsFilter).filterMap
    (fun p => (firstQueueFamily p).map (fun i => (p, i)))

/-- The ranking of `min_by_key`: lower is preferred. -/
def deviceTypeScore : PhysicalDeviceType → Nat
  | .DiscreteGpu => 0
  | .IntegratedGpu => 1
  | .VirtualGpu => 2
  | .Cpu => 3
  | .Other => 4
  | .UnknownDeviceType => 5

/-- The fold inside Rust's `Iterator::min_by_key`: the accumulator is
replaced only when the new key is strictly smaller, so the first element
attaining the minimum wins. -/
def minByKeyGo {α : Type} (key : α → Nat) (acc : α) : List α → α
  | [] => acc
  | x :: xs => minByKeyGo key (if key x < key acc then x else acc) xs

/-- Rust `Iterator::min_by_key` over a list. -/
def min_by_key {α : Type} (key : α → Nat) : List α → Option α
  | [] => none
  | x :: xs => some (minByKeyGo key x xs)

/-- The whole selection pipeline of `Graphics::new` (and identically
`Framework::new`): filter, find a queue family, and take the minimum by
device-type score. -/
def selectPhysicalDevice (ps : List PhysDevice) : Option (PhysDevice × Nat) :=
  min_by_key (fun pc => deviceTypeScore pc.1.device_type) (deviceCandidates ps)

/-! ## Error taxonomies and the enumeration/selection split -/

/-- `GraphicsErrorType` from `src/graphics/mod.rs`. -/
inductive GraphicsErrorType
  | FailedToGetVKLibrary
  | FailedToCreateVKInstance
  | FailedToCreateMainWindow
  | CouldNotEnumerateGraphicsDevices
  | NoSuitableGPU
  | DeviceOrQueueCreationFailed
  | NoGraphicsQueueAvailable
  | GetSurfaceCapabilitiesFailed
  | GetSurfaceFormatsFailed
deriving DecidableEq

/-- The renderer-related part of `ErrorType` from `extras/th/error/mod.rs`. -/
inductive FrameworkErrorType
  | VulkanMissing
  | EventLoopCreationFailed
  | VulkanInstanceCreationFailed
  | WindowCreationFailed
  | VulkanSurfaceCreationFailed
  | VulkanPhysicalDeviceEnumerationFailed
  | NoSuitableVulkanPhysicalDevices
  | VulkanDeviceCreationFailed
  | GetSurfaceCapabilitiesFailed
  | GetSurfaceFormatFailed
  | VulkanSwapchainCreationFailed
  | GetSurfaceCompositeAlphaFailed
deriving DecidableEq

/-- What `enumerate_physical_devices()` reported: the device list, or a
platform-level enumeration failure. -/
inductive EnumerationResult
  | ok (ps : List PhysDevice)
  | enumerationFailed
deriving DecidableEq

/-- The enumeration + selection step of `Graphics::new`
(`src/graphics/mod.rs` lines 91-132): an enumeration failure becomes
`CouldNotEnumerateGraphicsDevices`; an empty candidate set becomes
`NoSuitableGPU`. -/
def Graphics.pickPhysicalDevice :
    EnumerationResult → Except GraphicsErrorType (PhysDevice × Nat)
  | .enumerationFailed => .error .CouldNotEnumerateGraphicsDevices
  | .ok ps =>
      match selectPhysicalDevice ps with
      | none => .error .NoSuitableGPU
      | some pc => .ok pc

/-- The enumeration + selection step of `Framework::new`
(`extras/th/framework.rs` lines 173-222), same logic with the framework's
error names. -/
def Framework.pickPhysicalDevice :
    EnumerationResult → Except FrameworkErrorType (PhysDevice × Nat)
  | .enumerationFailed => .error .VulkanPhysicalDeviceEnumerationFailed
  | .ok ps =>
      match selectPhysicalDevice ps with
      | none => .error .NoSuitableVulkanPhysicalDevices
      | some pc => .ok pc

/-! ## Generic facts about `min_by_key` -/

theorem minByKeyGo_le {α : Type} (key : α → Nat) (xs : List α) :
    ∀ acc, key (minByKeyGo key acc xs) ≤ key acc ∧
      ∀ x ∈ xs, key (minByKeyGo key acc xs) ≤ key x := by
  induction xs with
  | nil =>
    intro acc
    exact ⟨Nat.le_refl _, by simp⟩
  | cons x xs ih =>
    intro acc
    simp only [minByKeyGo]
    obtain ⟨h1, h2⟩ := ih (if key x < key acc then x else acc)
    refine ⟨h1.trans ?_, ?_⟩
    · split

      case isTrue h => exact Nat.le_of_lt h
      case isFalse h => exact Nat.le_refl _
    · intro y hy
      rcases List.mem_cons.mp hy with rfl | hy
      · refine h1.trans ?_
        split
        case isTrue h => exact Nat.le_refl _
        case isFalse h => exact Nat.le_of_not_lt h
      · exact h2 y hy

theorem minByKeyGo_first {α : Type} (key : α → Nat) (xs : List α) :
    ∀ acc, minByKeyGo key acc xs = acc ∨
      ∃ l1 l2, xs = l1 ++ minByKeyGo key acc xs :: l2 ∧
        key (minByKeyGo key acc xs) < key acc ∧
        ∀ x ∈ l1, key (minByKeyGo key acc xs) < key x := by
  induction xs with
  | nil =>
    intro acc
    exact Or.inl rfl
  | cons x xs ih =>
    intro acc
    simp only [minByKeyGo]
    by_cases h : key x < key acc
    · simp only [if_pos h]
      rcases ih x with heq | ⟨l1, l2, hsplit, hlt, hall⟩
      · rw [heq]
        exact Or.inr ⟨[], xs, rfl, h, by simp⟩
      · refine Or.inr ⟨x :: l1, l2, by rw [List.cons_append, ← hsplit], Nat.lt_trans hlt h, ?_⟩
        intro y hy
        rcases List.mem_cons.mp hy with rfl | hy
        · exact hlt
        · exact hall y hy
    · simp only [if_neg h]
      rcases ih acc with heq | ⟨l1, l2, hsplit, hlt, hall⟩
      · exact Or.inl heq
      · refine Or.inr ⟨x :: l1, l2, by rw [List.cons_append, ← hsplit], hlt, ?_⟩
        intro y hy
        rcases List.mem_cons.mp hy with rfl | hy
        · exact Nat.lt_of_lt_of_le hlt (Nat.le_of_not_lt h)
        · exact hall y hy

/-- `min_by_key` returns a member of the list that attains the minimum key
and is the first to do so (everything before it scores strictly worse). -/
theorem min_by_key_spec {α : Type} (key : α → Nat) (l : List α) (m : α)
    (h : min_by_key key l = some m) :
    m ∈ l ∧ (∀ x ∈ l, key m ≤ key x) ∧
      ∃ l1 l2, l = l1 ++ m :: l2 ∧ ∀ x ∈ l1, key m < key x := by
  cases l with
  | nil => simp [min_by_key] at h
  | cons x xs =>
    have hm : minByKeyGo key x xs = m := by
      simpa [min_by_key] using h
    obtain ⟨hle_acc, hle_all⟩ := minByKeyGo_le key xs x
    rw [hm] at hle_acc hle_all
    rcases minByKeyGo_first key xs x with heq | ⟨l1, l2, hsplit, hlt, hall⟩
    · rw [hm] at heq
      subst heq
      refine ⟨List.mem_cons_self _ _, ?_, [], xs, rfl, by simp⟩
      intro y hy
      rcases List.mem_cons.mp hy with rfl | hy
      · exact Nat.le_refl _
      · exact hle_all y hy
    · rw [hm] at hsplit hlt hall
      have hmem : m ∈ x :: xs := by
        refine List.mem_cons_of_mem x ?_
        rw [hsplit]
        exact List.mem_append_right l1 (List.mem_cons_self _ _)
      refine ⟨hmem, ?_, x :: l1, l2, ?_, ?_⟩
      · intro y hy
        rcases List.mem_cons.mp hy with rfl | hy
        · exact hle_acc
        · exact hle_all y hy
      · rw [List.cons_append, ← hsplit]
      · intro y hy
        rcases List.mem_cons.mp hy with rfl | hy
        · exact hlt
        · exact hall y hy

/-- Only the discrete-GPU class scores 0. -/
theorem deviceTypeScore_eq_zero (t : PhysicalDeviceType)
    (h : deviceTypeScore t = 0) : t = PhysicalDeviceType.DiscreteGpu := by
  cases t <;> simp_all [deviceTypeScore]

/-- The candidate list is empty when every enumerated device fails a filter
or has no qualifying queue family. -/
theorem deviceCandidates_eq_nil (ps : List PhysDevice)
    (h : ∀ p ∈ ps, dynamicRenderingFilter p = false ∨ extensionsFilter p = false ∨
      firstQueueFamily p = none) : deviceCandidates ps = [] := by
  induction ps with
  | nil => rfl
  | cons p ps ih =>
    have hrest : deviceCandidates ps = [] :=
      ih (fun q hq => h q (List.mem_cons_of_mem p hq))
    have hp := h p (List.mem_cons_self p ps)
    simp only [deviceCandidates] at hrest ⊢
    cases hdyn : dynamicRenderingFilter p with
    | false =>
      rw [List.filter_cons, hdyn]
      simpa using hrest
    | true =>
      rw [List.filter_cons, hdyn]
      simp only [if_true]
      cases hext : extensionsFilter p with
      | false =>
        rw [List.filter_cons, hext]
        simpa using hrest
      | true =>
        have hq : firstQueueFamily p = none := by
          rcases hp with h1 | h1 | h1
          · rw [hdyn] at h1; cases h1
          · rw [hext] at h1; cases h1
          · exact h1
        rw [List.filter_cons, hext]
        simp only [if_true]
        rw [List.filterMap_cons, hq]
        simpa using hrest

/-! ## Claim C1 — ranking policy of the Device Selector -/

/-- C1. Whenever the selection pipeline picks a device, the pick is a member
of the filtered candidate set, it minimises the device-type score
(discrete < integrated < virtual < CPU < other) over all candidates, every
candidate enumerated before it scores strictly worse (so ties go to the
first-enumerated candidate), and in particular if the candidate set contains
a qualifying discrete GPU and a qualifying integrated GPU the pick is a
discrete GPU. -/
theorem c1_device_selector_ranking (ps : List PhysDevice) (p : PhysDevice) (i : Nat)
    (hsel : selectPhysicalDevice ps = some (p, i)) :
    (p, i) ∈ deviceCandidates ps ∧
    (∀ c ∈ deviceCandidates ps,
        deviceTypeScore p.device_type ≤ deviceTypeScore c.1.device_type) ∧
    (∃ l1 l2, deviceCandidates ps = l1 ++ (p, i) :: l2 ∧
        ∀ c ∈ l1, deviceTypeScore p.device_type < deviceTypeScore c.1.device_type) ∧
    (∀ d ∈ deviceCandidates ps, d.1.device_type = PhysicalDeviceType.DiscreteGpu →
      ∀ g ∈ deviceCandidates ps, g.1.device_type = PhysicalDeviceType.IntegratedGpu →
        p.device_type = PhysicalDeviceType.DiscreteGpu) := by
  have hsel' : min_by_key (fun pc : PhysDevice × Nat => deviceTypeScore pc.1.device_type)
      (deviceCandidates ps) = some (p, i) := hsel
  obtain ⟨hmem, hmin, hfirst⟩ :=
    min_by_key_spec (fun pc : PhysDevice × Nat => deviceTypeScore pc.1.device_type)
      (deviceCandidates ps) (p, i) hsel'
  refine ⟨hmem, hmin, hfirst, ?_⟩
  intro d hd hdisc _ _ _
  have hle := hmin d hd
  rw [hdisc] at hle
  simp only [deviceTypeScore] at hle
  exact deviceTypeScore_eq_zero _ (Nat.le_zero.mp hle)

/-- A graphics+present-capable queue family. -/
def qfOK : QueueFamily := { graphics := true, surface_support := some true }

/-- A queue family with no graphics support. -/
def qfNoGraphics : QueueFamily := { graphics := false, surface_support := some true }

/-- A qualifying discrete GPU. -/
def pdDiscrete : PhysDevice :=
  { api_version := (1, 3), khr_dynamic_rendering := false, khr_swapchain := true,
    device_type := .DiscreteGpu, queue_families := [qfOK] }

/-- A qualifying integrated GPU. -/
def pdIntegrated : PhysDevice :=
  { api_version := (1, 3), khr_dynamic_rendering := false, khr_swapchain := true,
    device_type := .IntegratedGpu, queue_families := [qfOK] }

/-- A device whose only queue family is not graphics-capable. -/
def pdNoQueue : PhysDevice :=
  { api_version := (1, 3), khr_dynamic_rendering := false, khr_swapchain := true,
    device_type := .DiscreteGpu, queue_families := [qfNoGraphics] }

theorem c1_witness :
    selectPhysicalDevice [pdIntegrated, pdDiscrete] = some (pdDiscrete, 0) ∧
    (pdDiscrete, 0) ∈ deviceCandidates [pdIntegrated, pdDiscrete] ∧
    pdDiscrete.device_type = PhysicalDeviceType.DiscreteGpu := by
  have hsel : selectPhysicalDevice [pdIntegrated, pdDiscrete] = some (pdDiscrete, 0) := by
    decide
  have hc := c1_device_selector_ranking [pdIntegrated, pdDiscrete] pdDiscrete 0 hsel
  exact ⟨hsel, hc.1,
    hc.2.2.2 (pdDiscrete, 0) hc.1 rfl (pdIntegrated, 0) (by decide) rfl⟩

/-! ## Claim C2 — "no suitable device" versus "enumeration failed" -/

/-- C2. When enumeration succeeds but every enumerated device fails the
version/extension filter or has no graphics+present queue family, both
selectors fail with their "no suitable device" error; the
enumeration-failure error is produced exactly when the platform could not
enumerate devices at all. -/
theorem c2_no_suitable_device_error (ps : List PhysDevice)
    (h : ∀ p ∈ ps, dynamicRenderingFilter p = false ∨ extensionsFilter p = false ∨
      firstQueueFamily p = none) :
    Graphics.pickPhysicalDevice (.ok ps) = .error .NoSuitableGPU ∧
    Framework.pickPhysicalDevice (.ok ps) = .error .NoSuitableVulkanPhysicalDevices ∧
    (∀ er, Graphics.pickPhysicalDevice er = .error .CouldNotEnumerateGraphicsDevices ↔
      er = .enumerationFailed) ∧
    (∀ er, Framework.pickPhysicalDevice er = .error .VulkanPhysicalDeviceEnumerationFailed ↔
      er = .enumerationFailed) := by
  have hnil : deviceCandidates ps = [] := deviceCandidates_eq_nil ps h
  have hsel : selectPhysicalDevice ps = none := by
    simp [selectPhysicalDevice, hnil, min_by_key]
  refine ⟨?_, ?_, ?_, ?_⟩
  · simp [Graphics.pickPhysicalDevice, hsel]
  · simp [Framework.pickPhysicalDevice, hsel]
  · intro er
    cases er with
    | enumerationFailed => simp [Graphics.pickPhysicalDevice]
    | ok qs =>
      simp only [Graphics.pickPhysicalDevice]
      cases hq : selectPhysicalDevice qs <;> simp
  · intro er
    cases er with
    | enumerationFailed => simp [Framework.pickPhysicalDevice]
    | ok qs =>
      simp only [Framework.pickPhysicalDevice]
      cases hq : selectPhysicalDevice qs <;> simp

theorem c2_witness :
    Graphics.pickPhysicalDevice (.ok [pdNoQueue]) =
      .error GraphicsErrorType.NoSuitableGPU ∧
    Framework.pickPhysicalDevice (.ok [pdNoQueue]) =
      .error FrameworkErrorType.NoSuitableVulkanPhysicalDevices ∧
    Graphics.pickPhysicalDevice .enumerationFailed =
      .error GraphicsErrorType.CouldNotEnumerateGraphicsDevices := by
  have hc := c2_no_suitable_device_error [pdNoQueue] (by decide)
  exact ⟨hc.1, hc.2.1, (hc.2.2.1 .enumerationFailed).mpr rfl⟩

/-! ## Swapchain, viewport and image model -/

/-- A presentable image: the only attribute the code reads is `extent()`. -/
structure Image where
  extent : Nat × Nat
deriving DecidableEq

/-- `ImageView::new_default(image)`. -/
structure ImageView where
  image : Image
deriving DecidableEq

/-- A swapchain as the recreation path sees it: the fields of
`SwapchainCreateInfo` that `create_info()` reproduces, plus a generation
counter distinguishing each (re)created chain. The image chain of a
swapchain is `min_image_count` images of `image_extent` (the value stored
here is already `surface min_image_count` maxed with 2, as built at creation). -/
structure SwapchainState where
  surface : Nat
  image_format : Nat
  min_image_count : Nat
  image_extent : Nat × Nat
  generation : Nat
deriving DecidableEq

/-- `swapchain.recreate(SwapchainCreateInfo { image_extent, ..create_info() })`:
same surface, format and image count, new extent, fresh image chain. -/
def SwapchainState.recreate (sc : SwapchainState) (extent : Nat × Nat) :
    SwapchainState × List Image :=
  ({ sc with image_extent := extent, generation := sc.generation + 1 },
    List.replicate sc.min_image_count { extent := extent })

/-- The vulkano `Viewport` with its three fields; the source only ever
stores exact small integers in them. -/
structure Viewport where
  offset : Nat × Nat
  extent : Nat × Nat
  depth_range : Nat × Nat
deriving DecidableEq

/-- `window_size_dependent_setup` from `extras/th/framework.rs` lines
592-603: reads `images[0].extent()` (a panic, modelled as `none`, when the
chain is empty), overwrites only the viewport's extent, and builds one
default view per image. -/
def window_size_dependent_setup (images : List Image) (viewport : Viewport) :
    Option (List ImageView × Viewport) :=
  match images with
  | [] => none
  | img :: _ =>
      some (images.map (fun i => ImageView.mk i), { viewport with extent := img.extent })

/-! ## Framework per-window state and present cycle (`extras/th/framework.rs`) -/

/-- `Box<dyn GpuFuture>` as tracked in `prev_frame_end`: either
`sync::now(device)` or the fence of a submitted frame chained onto the
previous token and the acquired image index. -/
inductive GpuFuture
  | now
  | frame (prev : GpuFuture) (imageIndex : Nat)
deriving DecidableEq

/-- `WindowWrapper` from `extras/th/framework.rs` lines 109-118, with the
window handle reduced to the current `inner_size()` extent. -/
structure WindowWrapper where
  window_extent : Nat × Nat
  surface : Nat
  swapchain : SwapchainState
  images : List Image
  image_views : List ImageView
  recreate_swapchain : Bool
  prev_frame_end : Option GpuFuture
  viewport : Viewport
deriving DecidableEq

/-- What the platform reports from `acquire_next_image`. -/
inductive AcquireOutcome
  | success (imageIndex : Nat) (suboptimal : Bool)
  | outOfDate
  | otherError
deriving DecidableEq

/-- What `then_signal_fence_and_flush()` reports for the
submit-and-present chain. -/
inductive SubmitOutcome
  | success
  | outOfDate
  | otherError
deriving DecidableEq

/-- The platform oracle for one present cycle: whether `recreate` would
succeed, and the acquisition and submission outcomes. -/
structure CycleEnv where
  recreate_ok : Bool
  acquire : AcquireOutcome
  submit : SubmitOutcome
deriving DecidableEq

/-- Observable steps of one present cycle, in execution order:
`cleanup_finished`, the swapchain `recreate` call, `acquire_next_image`,
building-and-submitting the command buffer, and the `println!` of a
non-`OutOfDate` submission error. -/
inductive Ev
  | cleanup
  | recreate
  | acquire
  | execute
  | logError
deriving DecidableEq

/-- Result of one present cycle: the next state of the window, or a panic
(`expect`/`unwrap`/explicit `panic!`) that terminates the present loop. -/
inductive CycleResult
  | next (w : WindowWrapper)
  | fatal
deriving DecidableEq

/-- The dirty-flag recreation block (`framework.rs` lines 484-498):
`swapchain.recreate` (panic on failure — `none`), store the new swapchain,
rebuild the views and viewport with `window_size_dependent_setup` (the
stale `images` field is left as is, exactly as in the source), and clear
the dirty flag. -/
def runRecreate (ok : Bool) (w : WindowWrapper) : Option WindowWrapper :=
  if ok then
    let p := SwapchainState.recreate w.swapchain w.window_extent
    match window_size_dependent_setup p.2 w.viewport with
    | none => none
    | some (views, vp) =>
        some { w with swapchain := p.1, image_views := views, viewport := vp,
                      recreate_swapchain := false }
  else none

/-- The tail of a present cycle, from `acquire_next_image` on
(`framework.rs` lines 500-581): `OutOfDate` marks dirty and returns with
the token untouched; any other acquisition error panics; on success the
suboptimal flag marks dirty for the next cycle, the command buffer is
built against `image_views[image_index]` (a panic when out of range), and
the submit-and-present outcome either installs the new fence token, or on
`OutOfDate` marks dirty and resets the token to `sync::now`, or on any
other error logs it and resets the token to `sync::now`. -/
def afterRecreate (env : CycleEnv) (prev : GpuFuture) (w1 : WindowWrapper)
    (tr : List Ev) : CycleResult × List Ev :=
  match env.acquire with
  | .outOfDate => (.next { w1 with recreate_swapchain := true }, tr ++ [Ev.acquire])
  | .otherError => (.fatal, tr ++ [Ev.acquire])
  | .success idx subopt =>
      let w2 := if subopt then { w1 with recreate_swapchain := true } else w1
      if idx < w2.image_views.length then
        match env.submit with
        | .success =>
            (.next { w2 with prev_frame_end := some (GpuFuture.frame prev idx) },
              tr ++ [Ev.acquire, Ev.execute])
        | .outOfDate =>
            (.next { w2 with recreate_swapchain := true,
                             prev_frame_end := some GpuFuture.now },
              tr ++ [Ev.acquire, Ev.execute])
        | .otherError =>
            (.next { w2 with prev_frame_end := some GpuFuture.now },
              tr ++ [Ev.acquire, Ev.execute, Ev.logError])
      else (.fatal, tr ++ [Ev.acquire])

/-- One `RedrawRequested` present cycle (`framework.rs` lines 471-582):
skip entirely on a zero-dimension extent; `cleanup_finished` on the
outstanding token (an unwrap panic when it is `None`); recreate first when
the dirty flag is set; then acquire, build, submit and present. -/
def redrawCycle (env : CycleEnv) (w : WindowWrapper) : CycleResult × List Ev :=
  if w.window_extent.1 = 0 ∨ w.window_extent.2 = 0 then
    (.next w, [])
  else
    match w.prev_frame_end with
    | none => (.fatal, [])
    | some prev =>
        if w.recreate_swapchain then
          match runRecreate env.recreate_ok w with
          | none => (.fatal, [Ev.cleanup, Ev.recreate])
          | some w1 => afterRecreate env prev w1 [Ev.cleanup, Ev.recreate]
        else afterRecreate env prev w [Ev.cleanup]

/-- The per-window state `Framework::new` builds (lines 258-306 and
441-450): a swapchain with `min_image_count = max(reported, 2)`, the first
reported surface format, extent taken from the window, viewport built by
`window_size_dependent_setup` from offset `[0,0]` and depth range `[0,1]`,
a clear dirty flag, and `prev_frame_end = Some(sync::now(device))`. -/
def Framework.initialWindow (ext : Nat × Nat) (surf : Nat) (caps_min : Nat)
    (fmt : Nat) : Option WindowWrapper :=
  let sc : SwapchainState :=
    { surface := surf, image_format := fmt, min_image_count := max caps_min 2,
      image_extent := ext, generation := 0 }
  let images : List Image := List.replicate sc.min_image_count { extent := ext }
  let vp0 : Viewport := { offset := (0, 0), extent := (0, 0), depth_range := (0, 1) }
  match window_size_dependent_setup images vp0 with
  | none => none
  | some (views, vp) =>
      some { window_extent := ext, surface := surf, swapchain := sc, images := images,
             image_views := views, recreate_swapchain := false,
             prev_frame_end := some GpuFuture.now, viewport := vp }

/-! ## AspenWindow swapchain manager (`src/graphics/window.rs`) -/

/-- `WindowErrorType` from `src/graphics/window.rs`. -/
inductive WindowErrorType
  | GetSurfaceCapabilitiesFailed
  | GetSurfaceFormatsFailed
  | GetWindowCompositeSurfaceFailed
  | CreateSwapChainFailed
deriving DecidableEq

/-- The device/surface oracle consulted by `AspenWindow::recreate_swapchain`:
whether `surface_capabilities` / `surface_formats` succeed and what they
report, and whether `Swapchain::new` succeeds. -/
structure DeviceEnv where
  caps_ok : Bool
  min_image_count : Nat
  supported_composite_alpha : List Nat
  formats_ok : Bool
  formats : List Nat
  swapchain_create_ok : Bool
deriving DecidableEq

/-- The `Present` record of `src/graphics/window.rs` lines 14-20. -/
structure AspenPresent where
  swapchain : SwapchainState
  images : List Image
  image_views : List ImageView
  viewport : Viewport
deriving DecidableEq

/-- `AspenWindow` from `src/graphics/window.rs` lines 6-12, with the winit
window reduced to its current `inner_size()` extent and the surface to an
identifier. -/
structure AspenWindow where
  window_extent : Nat × Nat
  surface : Nat
  present : Option AspenPresent
  should_recreate_swapchain : Bool
deriving DecidableEq

/-- `AspenWindow::new` (lines 22-36): no swapchain state yet, dirty flag
already set. -/
def AspenWindow.new (window_extent : Nat × Nat) (surface : Nat) : AspenWindow :=
  { window_extent := window_extent, surface := surface, present := none,
    should_recreate_swapchain := true }

/-- `AspenWindow::set_recreate_swapchain` (lines 38-40). -/
def AspenWindow.set_recreate_swapchain (w : AspenWindow) : AspenWindow :=
  { w with should_recreate_swapchain := true }

/-- `AspenWindow::window_size_dependent_setup` (lines 114-131): builds a
fresh viewport with origin offset, the first image's extent and depth
range `[0,1]`, plus one view per image; `images[0]` panics (`none`) on an
empty chain. -/
def AspenWindow.window_size_dependent_setup (images : List Image) :
    Option (List ImageView × Viewport) :=
  match images with
  | [] => none
  | img :: _ =>
      some (images.map (fun i => ImageView.mk i),
        { offset := (0, 0), extent := img.extent, depth_range := (0, 1) })

/-- Outcome of `AspenWindow::recreate_swapchain`: `Ok(())` with the updated
window, a typed `WindowError`, or a panic (the `[0]` index on an empty
format list, or `images[0]` on an empty chain). -/
inductive AspenOutcome
  | ok (w : AspenWindow)
  | err (e : WindowErrorType)
  | panic
deriving DecidableEq

/-- `AspenWindow::recreate_swapchain` (lines 42-112). With no `Present`
state: query capabilities and formats (each failure its own error), take
the first reported format (`[0]`, a panic when empty), require a
composite-alpha mode (`GetWindowCompositeSurfaceFailed` when the reported
set is empty), build the swapchain with `min_image_count = max(reported, 2)`
at the window's current extent, and install the new `Present`. With
existing state: recompute the views and viewport from the *stored* images
via `window_size_dependent_setup`, leaving the swapchain, its extent and
the stored images untouched. Neither branch touches
`should_recreate_swapchain`. -/
def AspenWindow.recreate_swapchain (env : DeviceEnv) (w : AspenWindow) : AspenOutcome :=
  match w.present with
  | none =>
      if env.caps_ok then
        if env.formats_ok then
          match env.formats.head? with
          | none => .panic
          | some fmt =>
              match env.supported_composite_alpha.head? with
              | none => .err .GetWindowCompositeSurfaceFailed
              | some _ =>
                  if env.swapchain_create_ok then
                    match AspenWindow.window_size_dependent_setup
                        (List.replicate (max env.min_image_count 2)
                          { extent := w.window_extent }) with
                    | none => .panic
                    | some (views, vp) =>
                        .ok { w with present := some (AspenPresent.mk
                          { surface := w.surface, image_format := fmt,
                            min_image_count := max env.min_image_count 2,
                            image_extent := w.window_extent, generation := 0 }
                          (List.replicate (max env.min_image_count 2)
                            { extent := w.window_extent })
                          views vp) }
                  else .err .CreateSwapChainFailed
        else .err .GetSurfaceFormatsFailed
      else .err .GetSurfaceCapabilitiesFailed
  | some present =>
      match AspenWindow.window_size_dependent_setup present.images with
      | none => .panic
      | some (views, vp) =>
          .ok { w with
            present := some { present with image_views := views, viewport := vp } }

/-- The `RedrawRequested` arm of `Engine::run` (`src/lib.rs` lines 171-187):
when the dirty flag is set, call `recreate_swapchain` and panic
(`expect`, modelled `none`) on failure; otherwise leave the window alone. -/
def Engine.redrawStep (env : DeviceEnv) (w : AspenWindow) : Option AspenWindow :=
  if w.should_recreate_swapchain then
    match AspenWindow.recreate_swapchain env w with
    | .ok w' => some w'
    | .err _ => none
    | .panic => none
  else some w

/-! ## Fixtures: a steady-state window and cycle environments -/

/-- A presentable image of extent 800×600. -/
def imgTest : Image := { extent := (800, 600) }

/-- The viewport for an 800×600 chain. -/
def vpTest : Viewport := { offset := (0, 0), extent := (800, 600), depth_range := (0, 1) }

/-- An 800×600 swapchain with three images. -/
def scTest : SwapchainState :=
  { surface := 0, image_format := 1, min_image_count := 3,
    image_extent := (800, 600), generation := 0 }

/-- A steady-state framework window: clean flag, baseline token. -/
def wTest : WindowWrapper :=
  { window_extent := (800, 600), surface := 0, swapchain := scTest,
    images := List.replicate 3 imgTest,
    image_views := (List.replicate 3 imgTest).map (fun i => ImageView.mk i),
    recreate_swapchain := false, prev_frame_end := some GpuFuture.now,
    viewport := vpTest }

/-- A cycle in which everything succeeds. -/
def envSteady : CycleEnv :=
  { recreate_ok := true, acquire := .success 0 false, submit := .success }

/-- A cycle in which acquisition reports `OutOfDate`. -/
def envAcqOOD : CycleEnv :=
  { recreate_ok := true, acquire := .outOfDate, submit := .success }

/-- A cycle in which acquisition fails with an unexpected error. -/
def envAcqErr : CycleEnv :=
  { recreate_ok := true, acquire := .otherError, submit := .success }

/-- A cycle in which submit-and-present reports `OutOfDate`. -/
def envSubOOD : CycleEnv :=
  { recreate_ok := true, acquire := .success 0 false, submit := .outOfDate }

/-- A cycle in which submit-and-present fails with an unexpected error. -/
def envSubErr : CycleEnv :=
  { recreate_ok := true, acquire := .success 0 false, submit := .otherError }

/-! ## Helper lemmas about the present cycle -/

/-- Whatever the platform reports, the tail of the cycle only appends to
the trace accumulated so far. -/
theorem afterRecreate_trace (env : CycleEnv) (prev : GpuFuture) (w1 : WindowWrapper)
    (tr : List Ev) : ∃ rest, (afterRecreate env prev w1 tr).2 = tr ++ rest := by
  cases hacq : env.acquire with
  | outOfDate => exact ⟨[Ev.acquire], by simp [afterRecreate, hacq]⟩
  | otherError => exact ⟨[Ev.acquire], by simp [afterRecreate, hacq]⟩
  | success idx subopt =>
    by_cases hidx :
        idx < (if subopt then { w1 with recreate_swapchain := true } else w1).image_views.length
    · cases hsub : env.submit with
      | success =>
        exact ⟨[Ev.acquire, Ev.execute], by simp [afterRecreate, hacq, hsub, hidx]⟩
      | outOfDate =>
        exact ⟨[Ev.acquire, Ev.execute], by simp [afterRecreate, hacq, hsub, hidx]⟩
      | otherError =>
        exact ⟨[Ev.acquire, Ev.execute, Ev.logError],
          by simp [afterRecreate, hacq, hsub, hidx]⟩
    · exact ⟨[Ev.acquire], by simp [afterRecreate, hacq, hidx]⟩

/-- `(l1 ++ l2).take l1.length = l1` for a two-element prefix, stated the
way the next-cycle trace claims need it. -/
theorem take_two_append (a b : Ev) (rest : List Ev) :
    (([a, b] ++ rest).take 2) = [a, b] := rfl

/-! ## Claim C3 — acquisition `OutOfDate` aborts the cycle -/

/-- C3. In a present cycle whose acquisition reports `OutOfDate` (entered
with a non-zero extent, an outstanding token and a clean dirty flag), the
cycle marks the window dirty, performs no submission, and leaves the Frame
Token exactly as it was; in the following cycle — whatever the platform
then reports — the first actions after token maintenance are the
recreation, before acquisition is retried; and a cycle whose acquisition
fails with any error other than `OutOfDate` panics, terminating the
present loop. -/
theorem c3_acquire_out_of_date (env : CycleEnv) (w : WindowWrapper) (prev : GpuFuture)
    (hx : w.window_extent.1 ≠ 0) (hy : w.window_extent.2 ≠ 0)
    (hp : w.prev_frame_end = some prev)
    (hrc : w.recreate_swapchain = false)
    (hacq : env.acquire = AcquireOutcome.outOfDate) :
    redrawCycle env w =
      (CycleResult.next { w with recreate_swapchain := true }, [Ev.cleanup, Ev.acquire]) ∧
    Ev.execute ∉ (redrawCycle env w).2 ∧
    (∀ env2 : CycleEnv,
      ((redrawCycle env2 { w with recreate_swapchain := true }).2).take 2 =
        [Ev.cleanup, Ev.recreate]) ∧
    (∀ env' : CycleEnv, env'.acquire = AcquireOutcome.otherError →
      (redrawCycle env' w).1 = CycleResult.fatal) := by
  obtain ⟨we, su, sc, im, iv, rc, pf, vp⟩ := w
  simp only at hx hy hp hrc
  subst hp
  subst hrc
  have hnz : ¬(we.1 = 0 ∨ we.2 = 0) := not_or.mpr ⟨hx, hy⟩
  have hmain : redrawCycle env ⟨we, su, sc, im, iv, false, some prev, vp⟩ =
      (CycleResult.next ⟨we, su, sc, im, iv, true, some prev, vp⟩,
        [Ev.cleanup, Ev.acquire]) := by
    simp [redrawCycle, hnz, afterRecreate, hacq]
  refine ⟨hmain, by rw [hmain]; simp, ?_, ?_⟩
  · intro env2
    show ((redrawCycle env2 ⟨we, su, sc, im, iv, true, some prev, vp⟩).2).take 2 = _
    simp only [redrawCycle, if_neg hnz]
    cases hrr : runRecreate env2.recreate_ok ⟨we, su, sc, im, iv, true, some prev, vp⟩ with
    | none => rfl
    | some w1 =>
      obtain ⟨rest, hres⟩ := afterRecreate_trace env2 prev w1 [Ev.cleanup, Ev.recreate]
      simp only [if_true]
      rw [hres]
      exact take_two_append Ev.cleanup Ev.recreate rest
  · intro env' hacq'
    simp [redrawCycle, hnz, afterRecreate, hacq']

theorem c3_witness :
    redrawCycle envAcqOOD wTest =
      (CycleResult.next { wTest with recreate_swapchain := true },
        [Ev.cleanup, Ev.acquire]) ∧
    ((redrawCycle envSteady { wTest with recreate_swapchain := true }).2).take 2 =
      [Ev.cleanup, Ev.recreate] ∧
    (redrawCycle envAcqErr wTest).1 = CycleResult.fatal := by
  have h := c3_acquire_out_of_date envAcqOOD wTest GpuFuture.now
    (by decide) (by decide) rfl rfl rfl
  exact ⟨h.1, h.2.2.1 envSteady, h.2.2.2 envAcqErr rfl⟩

/-! ## Claim C4 — submit/present errors are window-local and reset the token -/

/-- C4. In a present cycle that reaches submission (non-zero extent,
outstanding token, clean flag, acquisition succeeded with a valid image
index): if the submit-and-present chain reports `OutOfDate`, the cycle
marks the window dirty, replaces the Frame Token with the fresh
`sync::now` baseline, and returns a next state rather than a panic; on any
other submission error the cycle logs the error, likewise resets the token
to the fresh baseline, and also continues with a next state. -/
theorem c4_submit_error_recovery (env : CycleEnv) (w : WindowWrapper) (prev : GpuFuture)
    (idx : Nat) (sub : Bool)
    (hx : w.window_extent.1 ≠ 0) (hy : w.window_extent.2 ≠ 0)
    (hp : w.prev_frame_end = some prev)
    (hrc : w.recreate_swapchain = false)
    (hacq : env.acquire = AcquireOutcome.success idx sub)
    (hidx : idx < w.image_views.length) :
    (env.submit = SubmitOutcome.outOfDate →
      redrawCycle env w =
        (CycleResult.next
            { w with recreate_swapchain := true,
                     prev_frame_end := some GpuFuture.now },
          [Ev.cleanup, Ev.acquire, Ev.execute])) ∧
    (env.submit = SubmitOutcome.otherError →
      redrawCycle env w =
        (CycleResult.next
            { w with recreate_swapchain := sub,
                     prev_frame_end := some GpuFuture.now },
          [Ev.cleanup, Ev.acquire, Ev.execute, Ev.logError])) := by
  obtain ⟨we, su, sc, im, iv, rc, pf, vp⟩ := w
  simp only at hx hy hp hrc hidx
  subst hp
  subst hrc
  have hnz : ¬(we.1 = 0 ∨ we.2 = 0) := not_or.mpr ⟨hx, hy⟩
  cases sub with
  | false =>
    constructor
    · intro hsub
      simp [redrawCycle, hnz, afterRecreate, hacq, hsub, hidx]
    · intro hsub
      simp [redrawCycle, hnz, afterRecreate, hacq, hsub, hidx]
  | true =>
    constructor
    · intro hsub
      simp [redrawCycle, hnz, afterRecreate, hacq, hsub, hidx]
    · intro hsub
      simp [redrawCycle, hnz, afterRecreate, hacq, hsub, hidx]

theorem c4_witness :
    redrawCycle envSubOOD wTest =
      (CycleResult.next
          { wTest with recreate_swapchain := true,
                       prev_frame_end := some GpuFuture.now },
        [Ev.cleanup, Ev.acquire, Ev.execute]) ∧
    redrawCycle envSubErr wTest =
      (CycleResult.next
          { wTest with recreate_swapchain := false,
                       prev_frame_end := some GpuFuture.now },
        [Ev.cleanup, Ev.acquire, Ev.execute, Ev.logError]) := by
  have h1 := c4_submit_error_recovery envSubOOD wTest GpuFuture.now 0 false
    (by decide) (by decide) rfl rfl rfl (by decide)
  have h2 := c4_submit_error_recovery envSubErr wTest GpuFuture.now 0 false
    (by decide) (by decide) rfl rfl rfl (by decide)
  exact ⟨h1.1 rfl, h2.2 rfl⟩

/-! ## Claim C7 — zero-extent redraws are complete no-ops -/

/-- C7. A present cycle entered while the window extent has a zero width
or height returns the window state entirely unchanged, performs none of
the cycle's steps (empty trace: no recreation, no acquisition, no
submission), and reports no error. -/
theorem c7_zero_extent_skips_cycle (env : CycleEnv) (w : WindowWrapper)
    (h : w.window_extent.1 = 0 ∨ w.window_extent.2 = 0) :
    redrawCycle env w = (CycleResult.next w, []) := by
  unfold redrawCycle
  rw [if_pos h]

theorem c7_witness :
    redrawCycle envSteady { wTest with window_extent := (0, 600) } =
      (CycleResult.next { wTest with window_extent := (0, 600) }, []) :=
  c7_zero_extent_skips_cycle envSteady { wTest with window_extent := (0, 600) }
    (Or.inl rfl)

/-! ## Helper lemmas about recreation and viewport setup -/

theorem aspen_wsds_cons (img : Image) (rest : List Image) :
    AspenWindow.window_size_dependent_setup (img :: rest) =
      some ((img :: rest).map (fun i => ImageView.mk i),
        { offset := (0, 0), extent := img.extent, depth_range := (0, 1) }) := rfl

theorem framework_wsds_cons (img : Image) (rest : List Image) (vp0 : Viewport) :
    window_size_dependent_setup (img :: rest) vp0 =
      some ((img :: rest).map (fun i => ImageView.mk i),
        { vp0 with extent := img.extent }) := rfl

theorem replicate_pos_cons (n : Nat) (a : Image) (h : n ≠ 0) :
    List.replicate n a = a :: List.replicate (n - 1) a := by
  cases n with
  | zero => exact absurd rfl h
  | succ m => rfl

/-- When the framework's dirty-flag recreation block succeeds, it keeps
the token, extent and stale images field, clears the flag, installs the
recreated swapchain at the window's current extent, and rebuilds the
viewport with only its extent changed — to the new chain's extent. -/
theorem runRecreate_fields (ok : Bool) (w w1 : WindowWrapper)
    (h : runRecreate ok w = some w1) :
    w1.prev_frame_end = w.prev_frame_end ∧
    w1.window_extent = w.window_extent ∧
    w1.recreate_swapchain = false ∧
    w1.swapchain = { w.swapchain with image_extent := w.window_extent,
                                      generation := w.swapchain.generation + 1 } ∧
    w1.viewport = { w.viewport with extent := w.window_extent } ∧
    w1.images = w.images := by
  cases ok with
  | false => cases h
  | true =>
    by_cases hn : w.swapchain.min_image_count = 0
    · simp [runRecreate, SwapchainState.recreate, hn,
        window_size_dependent_setup] at h
    · rw [runRecreate, if_pos rfl] at h
      simp only [SwapchainState.recreate] at h
      rw [replicate_pos_cons _ _ hn, framework_wsds_cons] at h
      simp only [Option.some.injEq] at h
      subst h
      exact ⟨rfl, rfl, rfl, rfl, rfl, rfl⟩

/-- The tail of the cycle, when it continues, leaves the token outstanding:
either untouched, or replaced by the new frame fence, or reset to the
baseline. -/
theorem afterRecreate_token (env : CycleEnv) (prev : GpuFuture) (w1 w' : WindowWrapper)
    (tr0 tr : List Ev)
    (h : afterRecreate env prev w1 tr0 = (CycleResult.next w', tr))
    (hs : w1.prev_frame_end.isSome = true) : w'.prev_frame_end.isSome = true := by
  cases hacq : env.acquire with
  | outOfDate =>
    rw [afterRecreate, hacq] at h
    injection h with h1 h2
    injection h1 with h1
    subst h1
    exact hs
  | otherError =>
    rw [afterRecreate, hacq] at h
    injection h with h1 h2
    cases h1
  | success idx subopt =>
    rw [afterRecreate, hacq] at h
    simp only at h
    by_cases hidx :
        idx < (if subopt then { w1 with recreate_swapchain := true } else w1).image_views.length
    · rw [if_pos hidx] at h
      cases hsub : env.submit with
      | success =>
        rw [hsub] at h
        injection h with h1 h2
        injection h1 with h1
        subst h1
        rfl
      | outOfDate =>
        rw [hsub] at h
        injection h with h1 h2
        injection h1 with h1
        subst h1
        rfl
      | otherError =>
        rw [hsub] at h
        injection h with h1 h2
        injection h1 with h1
        subst h1
        rfl
    · rw [if_neg hidx] at h
      injection h with h1 h2
      cases h1

theorem max_two_ne_zero (n : Nat) : max n 2 ≠ 0 := by
  have := Nat.le_max_right n 2
  omega

/-- The tail of the cycle never touches the viewport. -/
theorem afterRecreate_viewport (env : CycleEnv) (prev : GpuFuture) (w1 w' : WindowWrapper)
    (tr0 tr : List Ev)
    (h : afterRecreate env prev w1 tr0 = (CycleResult.next w', tr)) :
    w'.viewport = w1.viewport := by
  cases hacq : env.acquire with
  | outOfDate =>
    rw [afterRecreate, hacq] at h
    injection h with h1 h2
    injection h1 with h1
    subst h1
    rfl
  | otherError =>
    rw [afterRecreate, hacq] at h
    injection h with h1 h2
    cases h1
  | success idx subopt =>
    rw [afterRecreate, hacq] at h
    simp only at h
    by_cases hidx :
        idx < (if subopt then { w1 with recreate_swapchain := true } else w1).image_views.length
    · rw [if_pos hidx] at h
      cases hsub : env.submit with
      | success =>
        rw [hsub] at h
        injection h with h1 h2
        injection h1 with h1
        subst h1
        cases subopt <;> rfl
      | outOfDate =>
        rw [hsub] at h
        injection h with h1 h2
        injection h1 with h1
        subst h1
        cases subopt <;> rfl
      | otherError =>
        rw [hsub] at h
        injection h with h1 h2
        injection h1 with h1
        subst h1
        cases subopt <;> rfl
    · rw [if_neg hidx] at h
      injection h with h1 h2
      cases h1

/-- Whenever `AspenWindow::recreate_swapchain` returns `Ok`, the window's
`Present` viewport has origin offset, unit depth range, and the extent of
the first image of that `Present`'s own chain. -/
theorem aspen_recreate_ok_present (env : DeviceEnv) (w w' : AspenWindow)
    (h : AspenWindow.recreate_swapchain env w = AspenOutcome.ok w') :
    ∃ p, w'.present = some p ∧
      p.viewport.offset = (0, 0) ∧ p.viewport.depth_range = (0, 1) ∧
      p.images.head?.map Image.extent = some p.viewport.extent := by
  unfold AspenWindow.recreate_swapchain at h
  split at h
  · -- present = none: the creation path
    split at h
    · split at h
      · split at h
        · exact AspenOutcome.noConfusion h
        · split at h
          · exact AspenOutcome.noConfusion h
          · split at h
            · split at h
              · exact AspenOutcome.noConfusion h
              · rename_i views vp hws
                injection h with h
                subst h
                rw [replicate_pos_cons _ _ (max_two_ne_zero env.min_image_count),
                  aspen_wsds_cons] at hws
                simp only [Option.some.injEq, Prod.mk.injEq] at hws
                obtain ⟨hv, hvp⟩ := hws
                subst hv
                subst hvp
                refine ⟨_, rfl, rfl, rfl, ?_⟩
                show (List.replicate (max env.min_image_count 2)
                  ({ extent := w.window_extent } : Image)).head?.map Image.extent =
                    some w.window_extent
                rw [replicate_pos_cons _ _ (max_two_ne_zero env.min_image_count)]
                rfl
            · exact AspenOutcome.noConfusion h
      · exact AspenOutcome.noConfusion h
    · exact AspenOutcome.noConfusion h
  · -- present = some: the reuse path
    rename_i pr hpres
    split at h
    · exact AspenOutcome.noConfusion h
    · rename_i views vp hws
      injection h with h
      subst h
      cases himg : pr.images with
      | nil =>
        rw [himg] at hws
        simp [AspenWindow.window_size_dependent_setup] at hws
      | cons img rest =>
        rw [himg, aspen_wsds_cons] at hws
        simp only [Option.some.injEq, Prod.mk.injEq] at hws
        obtain ⟨hv, hvp⟩ := hws
        subst hv
        subst hvp
        exact ⟨_, rfl, rfl, rfl, rfl⟩

/-! ## Claim C9 — exactly one outstanding Frame Token -/

/-- C9. The Frame Token is initialised to the `sync::now` baseline when the
framework builds its window state, and every present cycle that continues
(does not panic) hands back a window whose token slot is again occupied:
no control-flow path drops the token without replacing it. -/
theorem c9_frame_token_never_dropped :
    (∀ ext surf caps_min fmt w,
      Framework.initialWindow ext surf caps_min fmt = some w →
        w.prev_frame_end = some GpuFuture.now) ∧
    (∀ env w w' tr, redrawCycle env w = (CycleResult.next w', tr) →
      w.prev_frame_end.isSome = true → w'.prev_frame_end.isSome = true) := by
  constructor
  · intro ext surf caps_min fmt w h
    simp only [Framework.initialWindow] at h
    split at h
    · cases h
    · injection h with h
      subst h
      rfl
  · intro env w w' tr h hs
    by_cases hz : w.window_extent.1 = 0 ∨ w.window_extent.2 = 0
    · rw [redrawCycle, if_pos hz] at h
      injection h with h1 h2
      injection h1 with h1
      subst h1
      exact hs
    · rw [redrawCycle, if_neg hz] at h
      cases hpf : w.prev_frame_end with
      | none => rw [hpf] at hs; cases hs
      | some prev =>
        rw [hpf] at h
        cases hrc : w.recreate_swapchain with
        | false =>
          rw [hrc] at h
          simp only [Bool.false_eq_true, if_false] at h
          exact afterRecreate_token env prev w w' [Ev.cleanup] tr h hs
        | true =>
          rw [hrc] at h
          simp only [if_true] at h
          cases hrr : runRecreate env.recreate_ok w with
          | none => rw [hrr] at h; injection h with h1 h2; cases h1
          | some w1 =>
            rw [hrr] at h
            refine afterRecreate_token env prev w1 w' [Ev.cleanup, Ev.recreate] tr h ?_
            rw [(runRecreate_fields env.recreate_ok w w1 hrr).1, hpf]
            rfl

theorem c9_witness :
    wTest.prev_frame_end = some GpuFuture.now ∧
    ({ wTest with prev_frame_end := some (GpuFuture.frame GpuFuture.now 0) } :
        WindowWrapper).prev_frame_end.isSome = true := by
  refine ⟨c9_frame_token_never_dropped.1 (800, 600) 0 3 1 wTest (by decide),
    c9_frame_token_never_dropped.2 envSteady wTest
      { wTest with prev_frame_end := some (GpuFuture.frame GpuFuture.now 0) }
      [Ev.cleanup, Ev.acquire, Ev.execute] (by decide) rfl⟩

/-! ## Claim C8 — viewport invariant after every (re)creation -/

/-- C8. Every successful viewport computation yields origin offset, depth
range `[0,1]` and the first chain image's extent: directly for
`AspenWindow::window_size_dependent_setup` and for the windows
`AspenWindow::recreate_swapchain` hands back on either branch; for the
framework the initial window's viewport is exactly that of its chain, the
recreation block rewrites the viewport extent to the recreated chain's
extent while `window_size_dependent_setup` changes nothing else, so the
offset and depth range installed at creation persist across every cycle. -/
theorem c8_viewport_after_setup :
    (∀ img rest, AspenWindow.window_size_dependent_setup (img :: rest) =
      some ((img :: rest).map (fun i => ImageView.mk i),
        { offset := (0, 0), extent := img.extent, depth_range := (0, 1) })) ∧
    (∀ img rest vp0, window_size_dependent_setup (img :: rest) vp0 =
      some ((img :: rest).map (fun i => ImageView.mk i),
        { vp0 with extent := img.extent })) ∧
    (∀ env w w' p, AspenWindow.recreate_swapchain env w = AspenOutcome.ok w' →
      w'.present = some p →
      p.viewport.offset = (0, 0) ∧ p.viewport.depth_range = (0, 1) ∧
      p.images.head?.map Image.extent = some p.viewport.extent) ∧
    (∀ ext surf caps_min fmt w, Framework.initialWindow ext surf caps_min fmt = some w →
      w.viewport = { offset := (0, 0), extent := ext, depth_range := (0, 1) } ∧
      w.images.head?.map Image.extent = some ext) ∧
    (∀ ok w w1, runRecreate ok w = some w1 →
      w1.viewport = { w.viewport with extent := w.window_extent } ∧
      w1.swapchain.image_extent = w.window_extent) ∧
    (∀ env w w' tr, redrawCycle env w = (CycleResult.next w', tr) →
      w'.viewport.offset = w.viewport.offset ∧
      w'.viewport.depth_range = w.viewport.depth_range) := by
  refine ⟨fun img rest => aspen_wsds_cons img rest,
    fun img rest vp0 => framework_wsds_cons img rest vp0,
    ?_, ?_, ?_, ?_⟩
  · intro env w w' p h hp
    obtain ⟨q, hq, h1, h2, h3⟩ := aspen_recreate_ok_present env w w' h
    rw [hq] at hp
    injection hp with hp
    subst hp
    exact ⟨h1, h2, h3⟩
  · intro ext surf caps_min fmt w h
    simp only [Framework.initialWindow] at h
    split at h
    · cases h
    · rename_i views vp hws
      injection h with h
      subst h
      rw [replicate_pos_cons _ _ (max_two_ne_zero caps_min), framework_wsds_cons] at hws
      simp only [Option.some.injEq, Prod.mk.injEq] at hws
      obtain ⟨hv, hvp⟩ := hws
      constructor
      · simp only [← hvp]
      · show (List.replicate (max caps_min 2) { extent := ext }).head?.map Image.extent =
          some ext
        rw [replicate_pos_cons _ _ (max_two_ne_zero caps_min)]
        rfl
  · intro ok w w1 h
    obtain ⟨-, -, -, hsw, hvp, -⟩ := runRecreate_fields ok w w1 h
    exact ⟨hvp, by rw [hsw]⟩
  · intro env w w' tr h
    by_cases hz : w.window_extent.1 = 0 ∨ w.window_extent.2 = 0
    · rw [redrawCycle, if_pos hz] at h
      injection h with h1 h2
      injection h1 with h1
      subst h1
      exact ⟨rfl, rfl⟩
    · rw [redrawCycle, if_neg hz] at h
      cases hpf : w.prev_frame_end with
      | none => rw [hpf] at h; injection h with h1 h2; cases h1
      | some prev =>
        rw [hpf] at h
        cases hrc : w.recreate_swapchain with
        | false =>
          rw [hrc] at h
          simp only [Bool.false_eq_true, if_false] at h
          have := afterRecreate_viewport env prev w w' [Ev.cleanup] tr h
          rw [this]
          exact ⟨rfl, rfl⟩
        | true =>
          rw [hrc] at h
          simp only [if_true] at h
          cases hrr : runRecreate env.recreate_ok w with
          | none => rw [hrr] at h; injection h with h1 h2; cases h1
          | some w1 =>
            rw [hrr] at h
            have hvp := afterRecreate_viewport env prev w1 w' [Ev.cleanup, Ev.recreate] tr h
            have hw1 := (runRecreate_fields env.recreate_ok w w1 hrr).2.2.2.2.1
            rw [hvp, hw1]
            exact ⟨rfl, rfl⟩

theorem c8_witness :
    AspenWindow.window_size_dependent_setup [imgTest] =
      some ([ImageView.mk imgTest], vpTest) ∧
    window_size_dependent_setup [imgTest]
      { offset := (0, 0), extent := (0, 0), depth_range := (0, 1) } =
      some ([ImageView.mk imgTest], vpTest) ∧
    wTest.viewport = { offset := (0, 0), extent := (800, 600), depth_range := (0, 1) } := by
  have h := c8_viewport_after_setup
  exact ⟨h.1 imgTest [], h.2.1 imgTest [] _,
    (h.2.2.2.1 (800, 600) 0 3 1 wTest (by decide)).1⟩

/-! ## Fixtures: the engine-side window lifecycle -/

/-- A device environment in which every query succeeds: reported minimum
image count 3, one composite-alpha mode, one surface format. -/
def envDev : DeviceEnv :=
  { caps_ok := true, min_image_count := 3, supported_composite_alpha := [0],
    formats_ok := true, formats := [7], swapchain_create_ok := true }

/-- A freshly constructed 800×600 `AspenWindow`. -/
def freshWindow : AspenWindow := AspenWindow.new (800, 600) 0

/-- The window `AspenWindow::recreate_swapchain` builds from `freshWindow`
under `envDev`: an 800×600 swapchain with three images — and the dirty
flag still set. -/
def createdWindow : AspenWindow :=
  { window_extent := (800, 600), surface := 0,
    present := some (AspenPresent.mk
      { surface := 0, image_format := 7, min_image_count := 3,
        image_extent := (800, 600), generation := 0 }
      (List.replicate 3 imgTest)
      ((List.replicate 3 imgTest).map (fun i => ImageView.mk i))
      vpTest),
    should_recreate_swapchain := true }

/-- `createdWindow` after a resize event to 400×300: the winit window
reports the new extent and the `Resized` arm sets the dirty flag. -/
def resizedWindow : AspenWindow :=
  AspenWindow.set_recreate_swapchain { createdWindow with window_extent := (400, 300) }

/-! ## Claim C10 — new windows start uninitialised and dirty -/

/-- C10. A window built by `AspenWindow::new` has no swapchain state
(`present = None`) and its dirty flag already set; consequently the first
`Engine::run` redraw for it runs `recreate_swapchain`, whose output on a
`None`-state window is always a freshly created chain (generation 0, built
at the window's own extent, with newly made images) — no pre-existing
presentable image is consulted, since none exists. -/
theorem c10_new_window_uninitialized (ext : Nat × Nat) (surf : Nat) (env : DeviceEnv) :
    (AspenWindow.new ext surf).present = none ∧
    (AspenWindow.new ext surf).should_recreate_swapchain = true ∧
    (∀ w', Engine.redrawStep env (AspenWindow.new ext surf) = some w' →
      AspenWindow.recreate_swapchain env (AspenWindow.new ext surf) = AspenOutcome.ok w') ∧
    (∀ w', AspenWindow.recreate_swapchain env (AspenWindow.new ext surf) = AspenOutcome.ok w' →
      ∃ p, w'.present = some p ∧ p.swapchain.generation = 0 ∧
        p.swapchain.image_extent = ext ∧
        p.images = List.replicate (max env.min_image_count 2) { extent := ext }) := by
  refine ⟨rfl, rfl, ?_, ?_⟩
  · intro w' h
    have hstep : Engine.redrawStep env (AspenWindow.new ext surf) =
        match AspenWindow.recreate_swapchain env (AspenWindow.new ext surf) with
        | .ok w2 => some w2
        | .err _ => none
        | .panic => none := rfl
    rw [hstep] at h
    cases hrec : AspenWindow.recreate_swapchain env (AspenWindow.new ext surf) with
    | ok w2 => rw [hrec] at h; injection h with h; rw [h]
    | err e => rw [hrec] at h; cases h
    | panic => rw [hrec] at h; cases h
  · intro w' h
    simp only [AspenWindow.recreate_swapchain, AspenWindow.new] at h
    split at h
    · split at h
      · split at h
        · exact AspenOutcome.noConfusion h
        · split at h
          · exact AspenOutcome.noConfusion h
          · split at h
            · split at h
              · exact AspenOutcome.noConfusion h
              · injection h with h
                subst h
                exact ⟨_, rfl, rfl, rfl, rfl⟩
            · exact AspenOutcome.noConfusion h
      · exact AspenOutcome.noConfusion h
    · exact AspenOutcome.noConfusion h

theorem c10_witness :
    freshWindow.present = none ∧
    freshWindow.should_recreate_swapchain = true ∧
    AspenWindow.recreate_swapchain envDev freshWindow = AspenOutcome.ok createdWindow ∧
    (createdWindow.present.map fun p => p.swapchain.generation) = some 0 := by
  have h := c10_new_window_uninitialized (800, 600) 0 envDev
  have hrec : AspenWindow.recreate_swapchain envDev freshWindow =
      AspenOutcome.ok createdWindow := by decide
  have h4 := h.2.2.2 createdWindow hrec
  obtain ⟨p, hp, hgen, -, -⟩ := h4
  exact ⟨h.1, h.2.1, hrec, by rw [hp]; simpa using hgen⟩

/-! ## Claim C5 — the dirty flag after create/recreate (refuted: code bug) -/

/-- C5 (the claim fails on the code). `AspenWindow::recreate_swapchain`
clears `should_recreate_swapchain` on neither branch: starting from a
fresh window (flag set), a fully successful first creation returns
`createdWindow` with the flag still `true`, and a fully successful
recreation call on `createdWindow` returns it unchanged — flag still
`true`. (The framework's inline recreation block does clear its flag,
line 497 of `extras/th/framework.rs`; the `AspenWindow` manager cited by
the claim never does, so `Engine::run` recreates on every redraw.) -/
theorem c5_dirty_flag_not_cleared :
    AspenWindow.recreate_swapchain envDev freshWindow = AspenOutcome.ok createdWindow ∧
    freshWindow.should_recreate_swapchain = true ∧
    createdWindow.should_recreate_swapchain = true ∧
    AspenWindow.recreate_swapchain envDev createdWindow = AspenOutcome.ok createdWindow := by
  exact ⟨by decide, rfl, rfl, by decide⟩

/-! ## Claim C6 — resize propagation to the swapchain (refuted: code bug) -/

/-- C6 (the claim fails on the code). After a resize of `createdWindow` to
400×300 the next `Engine::run` redraw does call `recreate_swapchain`
(the flag is set), but the state-exists branch rebuilds views and
viewport from the *stored* 800×600 images and never calls the platform's
swapchain recreation: the redraw returns the window unchanged — the
swapchain generation stays 0, its extent and the viewport extent stay
(800, 600) instead of the claimed (400, 300). -/
theorem c6_resize_not_propagated :
    resizedWindow.window_extent = (400, 300) ∧
    resizedWindow.should_recreate_swapchain = true ∧
    Engine.redrawStep envDev resizedWindow = some resizedWindow ∧
    AspenWindow.recreate_swapchain envDev resizedWindow = AspenOutcome.ok resizedWindow ∧
    (resizedWindow.present.map fun p => p.viewport.extent) = some (800, 600) ∧
    ¬((resizedWindow.present.map fun p => p.viewport.extent) = some (400, 300)) ∧
    (resizedWindow.present.map fun p => p.swapchain.image_extent) = some (800, 600) ∧
    (resizedWindow.present.map fun p => p.swapchain.generation) = some 0 := by
  decide

end Aspen
